import Mathlib

/-!
Verification of the session/authentication and preference-memory subsystem
of the tour-planning assistant repository (files `memory.py` and `main.py`).

Modelling conventions:

* Wall-clock instants (`datetime.now()`) are integers (e.g. seconds); the
  Python `timedelta` comparison `now - issued > timeout` is integer
  comparison on `Int`, which agrees with signed timedelta arithmetic.
* The in-memory dictionary `self.user_sessions : Dict[str, datetime]` is an
  association list with no duplicate keys (the invariant every Python dict
  maintains); dictionary read, assignment and `del` are `lookupKey`,
  `insertKey` and `eraseKey` below.
* The graph database behind `self.driver` is modelled executable-state style:
  one adjacency list per (edge label, target label) pair the source queries
  actually use.  The driver call `execute_query(cypher, params)` is embedded
  as the Cypher semantics of that one query over this state, returning the
  sequence of result records, per the narrow collaborator contract the code
  relies on (a parameterized query returning records with named fields).
* `hashlib.sha256(password.encode()).hexdigest()` is modelled by an
  arbitrary function `hash : String → String` passed as a parameter: no
  claim depends on the internals of the digest, only on equality or
  inequality of digests, so every theorem below holds for the real digest
  function as a special case.
* `secrets.token_urlsafe(32)` is a fresh opaque string; the generated token
  is passed as an explicit parameter `newToken` to the functions that issue
  one.
* Distinct `datetime.now()` reads inside one top-level call are collapsed
  into a single `now` parameter; no claim depends on the sub-call timing.
* A caught Python exception from the database backend is modelled by a
  boolean `backendOk` parameter selecting the `except` branch; a failed
  query writes nothing (single-statement transaction semantics).
-/

/-- Dictionary read: the value stored at key `t`, if any. -/
def lookupKey {β : Type} (t : String) : List (String × β) → Option β
  | [] => none
  | (k, v) :: rest => if k = t then some v else lookupKey t rest

/-- Dictionary assignment `d[t] = v`: replaces the entry in place when the
key is present, otherwise appends a new entry. -/
def insertKey {β : Type} (t : String) (v : β) : List (String × β) → List (String × β)
  | [] => [(t, v)]
  | (k, w) :: rest => if k = t then (t, v) :: rest else (k, w) :: insertKey t v rest

/-- Dictionary deletion `del d[t]`: removes the entry with key `t` (under the
dict invariant of no duplicate keys, the first match is the only one). -/
def eraseKey {β : Type} (t : String) : List (String × β) → List (String × β)
  | [] => []
  | (k, v) :: rest => if k = t then rest else (k, v) :: eraseKey t rest

/-- The no-duplicate-keys invariant every Python dict maintains. -/
def nodupKeys {β : Type} (l : List (String × β)) : Prop :=
  (l.map Prod.fst).Nodup

instance {β : Type} (l : List (String × β)) : Decidable (nodupKeys l) := by
  unfold nodupKeys; infer_instance

/-- The session table `self.user_sessions : Dict[str, datetime]`, mapping an
opaque token to its issue instant. -/
abbrev Sessions := List (String × Int)

/-- The fixed session timeout `self.session_timeout = timedelta(hours=24)`,
in seconds. -/
def session_timeout : Int := 24 * 60 * 60

/-- `MemoryAgent.validate_session` (memory.py lines 269-279): absent token
gives false; an entry older than the timeout is deleted and gives false;
otherwise true.  Returns the result together with the updated table, since
the Python method mutates `self.user_sessions`. -/
def validate_session (now : Int) (sessions : Sessions) (token : String) :
    Bool × Sessions :=
  match lookupKey token sessions with
  | none => (false, sessions)
  | some session_time =>
      if now - session_time > session_timeout then
        (false, eraseKey token sessions)
      else
        (true, sessions)

theorem lookupKey_eq_none_of_not_mem {β : Type} (t : String)
    (l : List (String × β)) (h : t ∉ l.map Prod.fst) :
    lookupKey t l = none := by
  induction l with
  | nil => rfl
  | cons p rest ih =>
      obtain ⟨k, v⟩ := p
      simp only [List.map_cons, List.mem_cons] at h
      push_neg at h
      have hk : ¬ k = t := fun he => h.1 he.symm
      simp only [lookupKey, if_neg hk]
      exact ih h.2

theorem lookupKey_eraseKey_self {β : Type} (t : String) (l : List (String × β))
    (h : nodupKeys l) : lookupKey t (eraseKey t l) = none := by
  induction l with
  | nil => rfl
  | cons p rest ih =>
      obtain ⟨k, v⟩ := p
      unfold nodupKeys at h
      simp only [List.map_cons, List.nodup_cons] at h
      by_cases hk : k = t
      · subst hk
        have e1 : eraseKey k ((k, v) :: rest) = rest := by simp [eraseKey]
        rw [e1]
        exact lookupKey_eq_none_of_not_mem k rest h.1
      · simp only [eraseKey, if_neg hk, lookupKey, if_neg hk]
        exact ih h.2

theorem lookupKey_eraseKey_ne {β : Type} (t t2 : String) (l : List (String × β))
    (h : t2 ≠ t) : lookupKey t2 (eraseKey t l) = lookupKey t2 l := by
  induction l with
  | nil => rfl
  | cons p rest ih =>
      obtain ⟨k, v⟩ := p
      by_cases hk : k = t
      · subst hk
        have e1 : eraseKey k ((k, v) :: rest) = rest := by simp [eraseKey]
        rw [e1]
        have hk2 : ¬ k = t2 := fun he => h (he ▸ rfl)
        simp only [lookupKey, if_neg hk2]
      · simp only [eraseKey, if_neg hk, lookupKey]
        by_cases hk2 : k = t2
        · simp [hk2]
        · simp only [if_neg hk2]
          exact ih

/-- One `User` node: `password` holds the stored digest, the two timestamps
are server-assigned (memory.py lines 224-231). -/
structure UserNode where
  password : String
  created_at : Int
  last_active : Int
  deriving DecidableEq, Repr

/-- A property map of a graph node, as produced by `dict(node)`. -/
abbrev PropDict := List (String × String)

/-- The graph database state, one adjacency list per (edge label, target
label) pair the source queries use: `HAS_PREFERENCE` to `Preference`,
`VISITED` to `City`, `INTERESTED_IN` to `Activity` (all three read by
`get_user_preferences`), `INTERESTED_IN` to `Preference` (written by
`_store_preferences`; kept with its text in `prefFacts`, one list entry per
created node-and-edge pair) and `REMEMBERS` to `Memory` (written by
`store_user_memory`; kept in `memories` as username, text, timestamp).
Target nodes are identified with their property maps; the lists are
multisets of edges, so duplicated facts appear as duplicated entries. -/
structure Graph where
  users : List (String × UserNode)
  hasPreference : List (String × PropDict)
  visited : List (String × PropDict)
  interestedInActivity : List (String × PropDict)
  prefFacts : List (String × String)
  memories : List (String × String × Int)
  deriving DecidableEq, Repr

/-- `MemoryAgent.create_user` (memory.py lines 220-241): MERGE on the
username; ON CREATE stores the digest and both timestamps, ON MATCH only
refreshes `last_active`.  The RETURN clause always yields the one merged
row, so `bool(result[0]) if result else False` is true whenever the query
ran; the except branch returns false and writes nothing. -/
def create_user (hash : String → String) (backendOk : Bool) (now : Int)
    (g : Graph) (username password : String) : Bool × Graph :=
  let hashed_password := hash password
  if backendOk then
    match lookupKey username g.users with
    | none =>
        let node : UserNode :=
          { password := hashed_password, created_at := now, last_active := now }
        (true, { g with users := insertKey username node g.users })
    | some u =>
        let node := { u with last_active := now }
        (true, { g with users := insertKey username node g.users })
  else
    (false, g)

/-- The in-process state of one `MemoryAgent`: the graph connection plus the
session dictionary initialised empty in `__init__` (memory.py line 43). -/
structure AgentState where
  graph : Graph
  user_sessions : Sessions
  deriving DecidableEq, Repr

/-- `MemoryAgent.authenticate_user` (memory.py lines 243-267): exact-match
query on username and digest; on a hit refreshes `last_active`, issues the
fresh token `newToken` and records its issue time; on a miss, or when the
backend raises (modelled by `backendOk = false`), returns `none` with the
state untouched. -/
def authenticate_user (hash : String → String) (backendOk : Bool) (now : Int)
    (newToken : String) (st : AgentState) (username password : String) :
    Option String × AgentState :=
  let hashed_password := hash password
  if backendOk then
    match lookupKey username st.graph.users with
    | some u =>
        if u.password = hashed_password then
          let node := { u with last_active := now }
          let g2 := { st.graph with users := insertKey username node st.graph.users }
          (some newToken,
            { graph := g2,
              user_sessions := insertKey newToken now st.user_sessions })
        else (none, st)
    | none => (none, st)
  else
    (none, st)

/-- The per-browser-session UI state fields of main.py (lines 25-30). -/
structure UiState where
  authenticated : Bool
  username : Option String
  session_token : Option String
  deriving DecidableEq, Repr

/-- The whole application state: the agent plus the UI session state. -/
structure AppState where
  agent : AgentState
  ui : UiState
  deriving DecidableEq, Repr

/-- `handle_login` (main.py lines 36-44): authenticate, and on success set
the three UI fields. -/
def handle_login (hash : String → String) (backendOk : Bool) (now : Int)
    (newToken : String) (app : AppState) (username password : String) :
    Bool × AppState :=
  let r := authenticate_user hash backendOk now newToken app.agent username password
  match r.1 with
  | some t =>
      (true, { agent := r.2,
               ui := { authenticated := true, username := some username,
                       session_token := some t } })
  | none => (false, { app with agent := r.2 })

/-- `handle_signup` (main.py lines 46-51): create the user, then log in with
the same credentials when creation reported success. -/
def handle_signup (hash : String → String) (backendOk : Bool) (now : Int)
    (newToken : String) (app : AppState) (username password : String) :
    Bool × AppState :=
  let c := create_user hash backendOk now app.agent.graph username password
  let app2 := { app with agent := { app.agent with graph := c.2 } }
  if c.1 then handle_login hash backendOk now newToken app2 username password
  else (false, app2)

/-- The logout button handler of `chat_interface` (main.py lines 125-129):
clears the three UI fields and nothing else; in particular it never touches
`memory_agent.user_sessions`. -/
def logout_click (app : AppState) : AppState :=
  { app with ui := { authenticated := false, username := none,
                     session_token := none } }

/-- `validate_session` as invoked on the UI-stored token, which may be the
cleared value None: None is not among the string keys of the dictionary, so
the membership test on line 271 fails and the call returns false. -/
def validate_session_opt (now : Int) (sessions : Sessions)
    (token : Option String) : Bool × Sessions :=
  match token with
  | none => (false, sessions)
  | some t => validate_session now sessions t

/-- The session check at the top of `chat_interface` (main.py lines
116-119): validate the UI-stored token; on failure clear the authenticated
flag. -/
def chat_interface_check (now : Int) (app : AppState) : Bool × AppState :=
  let r := validate_session_opt now app.agent.user_sessions app.ui.session_token
  let app2 := { app with agent := { app.agent with user_sessions := r.2 } }
  if r.1 then (true, app2)
  else (false, { app2 with ui := { app2.ui with authenticated := false } })

/-- One extracted entity, carrying its property dictionary (the source reads
`entity.properties["text"]`). -/
structure Entity where
  properties : PropDict
  deriving DecidableEq, Repr

/-- One element of the `extracted_data` list built by `extract_preferences`
(memory.py lines 141-146): a dictionary that may carry an `entities` list
and may carry a `relationships` list. -/
structure ExtractedItem where
  entities : Option (List Entity)
  relationships : Option (List String)
  deriving DecidableEq, Repr

/-- The inner entity loop of `_store_preferences` (memory.py lines 287-311).
Each entity with a user match appends one `Preference` node together with
its `INTERESTED_IN` edge.  A missing `text` property raises KeyError, which
the try block at the top of the function catches: the loop stops there, the
writes already issued stay, and the boolean records the abort. -/
def store_entities (username : String) : Graph → List Entity → Graph × Bool
  | g, [] => (g, true)
  | g, e :: rest =>
      match lookupKey "text" e.properties with
      | none => (g, false)
      | some text =>
          match lookupKey username g.users with
          | none => store_entities username g rest
          | some _ =>
              store_entities username
                { g with prefFacts := g.prefFacts ++ [(username, text)] } rest

/-- The outer loop of `_store_preferences` over `extracted_data` (memory.py
lines 285-316); the relationships branch only prints and writes nothing. -/
def store_items (username : String) : Graph → List ExtractedItem → Graph × Bool
  | g, [] => (g, true)
  | g, item :: rest =>
      match item.entities with
      | none => store_items username g rest
      | some es =>
          let r := store_entities username g es
          if r.2 then store_items username r.1 rest else (r.1, false)

/-- `MemoryAgent._store_preferences` (memory.py lines 281-322): runs both
loops inside one try block whose except branch only logs, so the caller
always gets back the graph reached when the loops finished or aborted. -/
def _store_preferences (g : Graph) (username : String)
    (extracted_data : List ExtractedItem) : Graph :=
  (store_items username g extracted_data).1

/-- The Cypher MATCH-CREATE of `store_user_memory` (memory.py lines
167-177): appends one `Memory` node and `REMEMBERS` edge when the user node
exists, and silently matches zero rows otherwise. -/
def write_memory_query (g : Graph) (username text : String) (now : Int) : Graph :=
  match lookupKey username g.users with
  | none => g
  | some _ => { g with memories := g.memories ++ [(username, text, now)] }

/-- The try block of `MemoryAgent.store_user_memory` (memory.py lines
152-181): extraction first (`OnError.RAISE` can raise), then the `Memory`
write (the backend can raise; a failed single-statement query writes
nothing), then `_store_preferences` when extraction produced data.  The
extraction outcome is a parameter since the LLM pipeline is an external
collaborator. -/
def store_user_memory_body (backendOk : Bool) (g : Graph) (username text : String)
    (now : Int) (extraction : Except String (List ExtractedItem)) :
    Except String Graph := do
  let extracted_data ← extraction
  let g1 ←
    if backendOk then pure (write_memory_query g username text now)
    else Except.error "backend failure"
  if extracted_data.isEmpty then pure g1
  else pure (_store_preferences g1 username extracted_data)

/-- `MemoryAgent.store_user_memory` (memory.py lines 150-184): the whole
body sits in a try block whose except branch only prints, so every raise is
swallowed and the graph stays as it was when the raise happened. -/
def store_user_memory (backendOk : Bool) (g : Graph) (username text : String)
    (now : Int) (extraction : Except String (List ExtractedItem)) : Graph :=
  match store_user_memory_body backendOk g username text now extraction with
  | Except.ok g2 => g2
  | Except.error _ => g

/-- Cypher `collect(distinct x)` over the optional-match targets reachable
from the named user: collects each target of an edge leaving the user and
removes duplicates (nulls of an empty optional match contribute nothing). -/
def edgeTargets (edges : List (String × PropDict)) (username : String) :
    List PropDict :=
  (edges.filterMap (fun p => if p.1 = username then some p.2 else none)).dedup

/-- One record returned by the query of `get_user_preferences` (memory.py
lines 188-196): the user node and the three collected lists. -/
structure PrefRecord where
  u : UserNode
  preferences : List PropDict
  visited_cities : List PropDict
  interests : List PropDict
  deriving DecidableEq, Repr

/-- The record sequence produced by the query of `get_user_preferences`:
zero records when the MATCH on the user finds nothing, otherwise the single
aggregated row. -/
def run_preferences_query (g : Graph) (username : String) : List PrefRecord :=
  match lookupKey username g.users with
  | none => []
  | some u =>
      [{ u := u,
         preferences := edgeTargets g.hasPreference username,
         visited_cities := edgeTargets g.visited username,
         interests := edgeTargets g.interestedInActivity username }]

/-- The snapshot dictionary built on memory.py lines 206-210, with its three
keys. -/
structure Snapshot where
  preferences : List PropDict
  visited_cities : List PropDict
  interests : List PropDict
  deriving DecidableEq, Repr

/-- The two shapes `_format_preferences` can return: the bare empty
dictionary of line 203, or the three-key snapshot of lines 206-210. -/
inductive PrefResult
  | emptyDict
  | snapshot (s : Snapshot)
  deriving DecidableEq, Repr

/-- `MemoryAgent._format_preferences` (memory.py lines 200-210): an empty
record sequence gives the bare `{}` (the guard `not result or not
result[0]`; a returned record always carries its four fields and is never
falsy, so the guard is exactly emptiness); otherwise the first record is
unpacked into the three-key snapshot. -/
def _format_preferences (result : List PrefRecord) : PrefResult :=
  match result with
  | [] => PrefResult.emptyDict
  | record :: _ =>
      PrefResult.snapshot
        { preferences := record.preferences,
          visited_cities := record.visited_cities,
          interests := record.interests }

/-- `MemoryAgent.get_user_preferences` (memory.py lines 186-198): run the
aggregation query and format its records. -/
def get_user_preferences (g : Graph) (username : String) : PrefResult :=
  _format_preferences (run_preferences_query g username)

/-- Number of `Preference` fact nodes (each carrying its `INTERESTED_IN`
edge) recorded for the given user with the given text. -/
def countFacts (g : Graph) (username text : String) : Nat :=
  (g.prefFacts.filter (fun p => p.1 = username ∧ p.2 = text)).length

theorem lookupKey_insertKey_self {β : Type} (t : String) (v : β)
    (l : List (String × β)) : lookupKey t (insertKey t v l) = some v := by
  induction l with
  | nil => simp [insertKey, lookupKey]
  | cons p rest ih =>
      obtain ⟨k, w⟩ := p
      by_cases hk : k = t
      · simp [insertKey, hk, lookupKey]
      · simp [insertKey, hk, lookupKey, ih]

theorem lookupKey_insertKey_ne {β : Type} (t t2 : String) (v : β)
    (l : List (String × β)) (h : t2 ≠ t) :
    lookupKey t2 (insertKey t v l) = lookupKey t2 l := by
  induction l with
  | nil =>
      have hk : ¬ t = t2 := fun he => h he.symm
      simp [insertKey, lookupKey, hk]
  | cons p rest ih =>
      obtain ⟨k, w⟩ := p
      by_cases hk : k = t
      · subst hk
        have hk2 : ¬ k = t2 := fun he => h (he ▸ rfl)
        simp [insertKey, lookupKey, hk2]
      · by_cases hk2 : k = t2
        · simp [insertKey, hk, lookupKey, hk2, h]
        · simp [insertKey, hk, lookupKey, hk2, ih]

/-- C3: `validate_session` returns false when the token is absent from the
session table; when the token is present and its age strictly exceeds the
fixed 24-hour timeout it deletes the entry (and only that entry) and
returns false; otherwise it returns true with the table unchanged. -/
theorem validate_session_cases_spec (now : Int) (s : Sessions) (t : String)
    (hnd : nodupKeys s) :
    (lookupKey t s = none → validate_session now s t = (false, s)) ∧
    (∀ issued, lookupKey t s = some issued →
      (now - issued > session_timeout →
        (validate_session now s t).1 = false ∧
        lookupKey t (validate_session now s t).2 = none ∧
        (∀ t2, t2 ≠ t →
          lookupKey t2 (validate_session now s t).2 = lookupKey t2 s)) ∧
      (now - issued ≤ session_timeout →
        validate_session now s t = (true, s))) := by
  refine ⟨?_, ?_⟩
  · intro h
    simp [validate_session, h]
  · intro issued h
    refine ⟨?_, ?_⟩
    · intro hgt
      have hv : validate_session now s t = (false, eraseKey t s) := by
        simp [validate_session, h, hgt]
      rw [hv]
      exact ⟨rfl, lookupKey_eraseKey_self t s hnd,
             fun t2 ht2 => lookupKey_eraseKey_ne t t2 s ht2⟩
    · intro hle
      simp [validate_session, h, not_lt.mpr hle]

/-- C3 witness: the three branches at concrete inputs. -/
theorem validate_session_cases_spec_witness :
    validate_session 100 [("tok", (0 : Int))] "tok" = (true, [("tok", 0)]) ∧
    (validate_session 100000 [("tok", (0 : Int))] "tok").1 = false ∧
    lookupKey "tok" (validate_session 100000 [("tok", (0 : Int))] "tok").2 = none ∧
    validate_session 100 [("tok", (0 : Int))] "other" = (false, [("tok", 0)]) := by
  refine ⟨?_, ?_, ?_, ?_⟩
  · exact ((validate_session_cases_spec 100 [("tok", 0)] "tok" (by decide)).2 0
      (by decide)).2 (by decide)
  · exact (((validate_session_cases_spec 100000 [("tok", 0)] "tok" (by decide)).2 0
      (by decide)).1 (by decide)).1
  · exact (((validate_session_cases_spec 100000 [("tok", 0)] "tok" (by decide)).2 0
      (by decide)).1 (by decide)).2.1
  · exact (validate_session_cases_spec 100 [("tok", 0)] "other" (by decide)).1
      (by decide)

/-- C8: validating a present, unexpired token returns true and leaves the
session table exactly as it was; in particular the stored issue instant is
not refreshed, so expiry stays measured from issuance. -/
theorem validate_session_frame_spec (now : Int) (s : Sessions) (t : String)
    (issued : Int) (h : lookupKey t s = some issued)
    (hfresh : now - issued ≤ session_timeout) :
    validate_session now s t = (true, s) := by
  simp [validate_session, h, not_lt.mpr hfresh]

/-- C8 witness: a token issued at instant 5 and validated at instant 600 is
reported valid and the table, including its issue instant, is untouched. -/
theorem validate_session_frame_spec_witness :
    validate_session 600 [("a", (5 : Int)), ("b", (7 : Int))] "a" =
      (true, [("a", 5), ("b", 7)]) :=
  validate_session_frame_spec 600 [("a", 5), ("b", 7)] "a" 5 (by decide) (by decide)

/-- C1 counterexample: with one issued, unexpired token held by the UI,
pressing the logout button leaves the token in the session table, and
`validate_session` on that very token still returns true — the claim that
validation of the token is false after logout, because logout removes its
entry, fails on the code (no revoke of the table entry exists). -/
theorem logout_then_validate_counterexample :
    (validate_session 10
      (logout_click
        { agent := { graph := ⟨[], [], [], [], [], []⟩,
                     user_sessions := [("tok1", (0 : Int))] },
          ui := { authenticated := true, username := some "alice",
                  session_token := some "tok1" } }).agent.user_sessions
      "tok1").1 = true ∧
    lookupKey "tok1"
      (logout_click
        { agent := { graph := ⟨[], [], [], [], [], []⟩,
                     user_sessions := [("tok1", (0 : Int))] },
          ui := { authenticated := true, username := some "alice",
                  session_token := some "tok1" } }).agent.user_sessions =
      some 0 := by
  decide

/-- C1 amended: the logout button clears only the UI session state; the
agent state, session table included, is untouched, so the chat interface
check after logout returns false (it validates the cleared token), while
`validate_session` applied directly to the still-stored token returns true
as long as it is unexpired, and validation of every token is exactly as
before logout. -/
theorem logout_click_spec (app : AppState) (t : String) (issued now : Int)
    (htok : app.ui.session_token = some t)
    (hmem : lookupKey t app.agent.user_sessions = some issued)
    (hfresh : now - issued ≤ session_timeout) :
    (logout_click app).agent = app.agent ∧
    (logout_click app).ui.session_token = none ∧
    (chat_interface_check now (logout_click app)).1 = false ∧
    (validate_session now (logout_click app).agent.user_sessions t).1 = true ∧
    (∀ t2, validate_session now (logout_click app).agent.user_sessions t2 =
           validate_session now app.agent.user_sessions t2) := by
  refine ⟨rfl, rfl, ?_, ?_, fun t2 => rfl⟩
  · simp [chat_interface_check, logout_click, validate_session_opt]
  · simp [logout_click, validate_session, hmem, not_lt.mpr hfresh]

/-- C1 witness: the amended statement at the concrete one-token state. -/
theorem logout_click_spec_witness :
    (logout_click
      { agent := { graph := ⟨[], [], [], [], [], []⟩,
                   user_sessions := [("tok1", (0 : Int))] },
        ui := { authenticated := true, username := some "alice",
                session_token := some "tok1" } }).agent =
      { graph := ⟨[], [], [], [], [], []⟩,
        user_sessions := [("tok1", (0 : Int))] } ∧
    (logout_click
      { agent := { graph := ⟨[], [], [], [], [], []⟩,
                   user_sessions := [("tok1", (0 : Int))] },
        ui := { authenticated := true, username := some "alice",
                session_token := some "tok1" } }).ui.session_token = none ∧
    (chat_interface_check 10
      (logout_click
        { agent := { graph := ⟨[], [], [], [], [], []⟩,
                     user_sessions := [("tok1", (0 : Int))] },
          ui := { authenticated := true, username := some "alice",
                  session_token := some "tok1" } })).1 = false ∧
    (validate_session 10
      (logout_click
        { agent := { graph := ⟨[], [], [], [], [], []⟩,
                     user_sessions := [("tok1", (0 : Int))] },
          ui := { authenticated := true, username := some "alice",
                  session_token := some "tok1" } }).agent.user_sessions
      "tok1").1 = true ∧
    validate_session 10
      (logout_click
        { agent := { graph := ⟨[], [], [], [], [], []⟩,
                     user_sessions := [("tok1", (0 : Int))] },
          ui := { authenticated := true, username := some "alice",
                  session_token := some "tok1" } }).agent.user_sessions
      "other" =
      validate_session 10 [("tok1", (0 : Int))] "other" :=
  let h := logout_click_spec
    { agent := { graph := ⟨[], [], [], [], [], []⟩,
                 user_sessions := [("tok1", (0 : Int))] },
      ui := { authenticated := true, username := some "alice",
              session_token := some "tok1" } }
    "tok1" 0 10 rfl (by decide) (by decide)
  ⟨h.1, h.2.1, h.2.2.1, h.2.2.2.1, h.2.2.2.2 "other"⟩

/-- C2: for non-empty credentials and a username not yet registered, signup
(create_user then login) reports success, and a further login with the same
credentials succeeds, stores its fresh token in the UI state, and that
token validates as true immediately. -/
theorem signup_then_login_spec (hash : String → String) (now1 now2 : Int)
    (tok1 tok2 : String) (app : AppState) (username password : String)
    (hu : username ≠ "") (hp : password ≠ "")
    (habs : lookupKey username app.agent.graph.users = none) :
    (handle_signup hash true now1 tok1 app username password).1 = true ∧
    (handle_login hash true now2 tok2
        (handle_signup hash true now1 tok1 app username password).2
        username password).1 = true ∧
    (handle_login hash true now2 tok2
        (handle_signup hash true now1 tok1 app username password).2
        username password).2.ui.session_token = some tok2 ∧
    (validate_session now2
        (handle_login hash true now2 tok2
          (handle_signup hash true now1 tok1 app username password).2
          username password).2.agent.user_sessions tok2).1 = true := by
  simp [handle_signup, handle_login, create_user, authenticate_user, habs,
        lookupKey_insertKey_self, validate_session, session_timeout, sub_self]

/-- C2 witness: the signup-login chain at a concrete fresh state. -/
theorem signup_then_login_spec_witness :
    "alice" ≠ "" ∧ "pw" ≠ "" ∧
    lookupKey "alice"
      (⟨⟨⟨[], [], [], [], [], []⟩, []⟩, ⟨false, none, none⟩⟩ :
        AppState).agent.graph.users = none ∧
    (handle_signup id true 0 "t1"
      ⟨⟨⟨[], [], [], [], [], []⟩, []⟩, ⟨false, none, none⟩⟩ "alice" "pw").1 = true ∧
    (handle_login id true 5 "t2"
      (handle_signup id true 0 "t1"
        ⟨⟨⟨[], [], [], [], [], []⟩, []⟩, ⟨false, none, none⟩⟩ "alice" "pw").2
      "alice" "pw").1 = true ∧
    (handle_login id true 5 "t2"
      (handle_signup id true 0 "t1"
        ⟨⟨⟨[], [], [], [], [], []⟩, []⟩, ⟨false, none, none⟩⟩ "alice" "pw").2
      "alice" "pw").2.ui.session_token = some "t2" ∧
    (validate_session 5
      (handle_login id true 5 "t2"
        (handle_signup id true 0 "t1"
          ⟨⟨⟨[], [], [], [], [], []⟩, []⟩, ⟨false, none, none⟩⟩ "alice" "pw").2
        "alice" "pw").2.agent.user_sessions "t2").1 = true :=
  let h := signup_then_login_spec id 0 5 "t1" "t2"
    ⟨⟨⟨[], [], [], [], [], []⟩, []⟩, ⟨false, none, none⟩⟩ "alice" "pw"
    (by decide) (by decide) rfl
  ⟨by decide, by decide, rfl, h.1, h.2.1, h.2.2.1, h.2.2.2⟩

/-- C5: create_user on an existing username reports success, rewrites the
stored node with only last_active set to the call instant (password digest
and created_at kept), and leaves every other username and every other part
of the graph untouched. -/
theorem create_user_existing_spec (hash : String → String) (now : Int)
    (g : Graph) (username password : String) (u : UserNode)
    (hexist : lookupKey username g.users = some u) :
    (create_user hash true now g username password).1 = true ∧
    lookupKey username (create_user hash true now g username password).2.users =
      some { password := u.password, created_at := u.created_at,
             last_active := now } ∧
    (∀ u2, u2 ≠ username →
      lookupKey u2 (create_user hash true now g username password).2.users =
        lookupKey u2 g.users) ∧
    (create_user hash true now g username password).2.hasPreference =
      g.hasPreference ∧
    (create_user hash true now g username password).2.visited = g.visited ∧
    (create_user hash true now g username password).2.interestedInActivity =
      g.interestedInActivity ∧
    (create_user hash true now g username password).2.prefFacts = g.prefFacts ∧
    (create_user hash true now g username password).2.memories = g.memories := by
  refine ⟨?_, ?_, ?_, ?_, ?_, ?_, ?_, ?_⟩ <;>
    simp [create_user, hexist, lookupKey_insertKey_self, lookupKey_insertKey_ne]
  intro u2 h2
  exact lookupKey_insertKey_ne username u2 _ g.users h2

/-- C5 witness: re-registering an existing user with a different password
keeps the stored digest and creation instant and refreshes last_active. -/
theorem create_user_existing_spec_witness :
    lookupKey "bob"
      (⟨[("bob", ⟨"digest0", 1, 2⟩)], [], [], [], [], []⟩ : Graph).users =
      some ⟨"digest0", 1, 2⟩ ∧
    (create_user id true 9
      ⟨[("bob", ⟨"digest0", 1, 2⟩)], [], [], [], [], []⟩ "bob" "newpw").1 = true ∧
    lookupKey "bob"
      (create_user id true 9
        ⟨[("bob", ⟨"digest0", 1, 2⟩)], [], [], [], [], []⟩ "bob" "newpw").2.users =
      some ⟨"digest0", 1, 9⟩ :=
  let h := create_user_existing_spec id 9
    ⟨[("bob", ⟨"digest0", 1, 2⟩)], [], [], [], [], []⟩ "bob" "newpw"
    ⟨"digest0", 1, 2⟩ (by decide)
  ⟨by decide, h.1, h.2.1⟩

/-- C7: authenticate_user returns the very same falsy outcome, token none
with the state untouched, in all three negative cases: backend exception
(caught, the call still returns normally), unknown username, and stored
digest different from the digest of the supplied password. -/
theorem authenticate_user_falsy_spec (hash : String → String) (now : Int)
    (newToken : String) (st : AgentState) (username password : String) :
    authenticate_user hash false now newToken st username password =
      (none, st) ∧
    (lookupKey username st.graph.users = none →
      authenticate_user hash true now newToken st username password =
        (none, st)) ∧
    (∀ u, lookupKey username st.graph.users = some u →
      u.password ≠ hash password →
      authenticate_user hash true now newToken st username password =
        (none, st)) := by
  refine ⟨rfl, ?_, ?_⟩
  · intro h
    simp [authenticate_user, h]
  · intro u h hne
    simp [authenticate_user, h, hne]

/-- C7 witness: the three falsy cases at concrete states coincide. -/
theorem authenticate_user_falsy_spec_witness :
    authenticate_user id false 3 "tk"
      ⟨⟨[("bob", ⟨"pw", 0, 0⟩)], [], [], [], [], []⟩, []⟩ "bob" "pw" =
      (none, ⟨⟨[("bob", ⟨"pw", 0, 0⟩)], [], [], [], [], []⟩, []⟩) ∧
    authenticate_user id true 3 "tk"
      ⟨⟨[("bob", ⟨"pw", 0, 0⟩)], [], [], [], [], []⟩, []⟩ "carol" "pw" =
      (none, ⟨⟨[("bob", ⟨"pw", 0, 0⟩)], [], [], [], [], []⟩, []⟩) ∧
    authenticate_user id true 3 "tk"
      ⟨⟨[("bob", ⟨"pw", 0, 0⟩)], [], [], [], [], []⟩, []⟩ "bob" "wrong" =
      (none, ⟨⟨[("bob", ⟨"pw", 0, 0⟩)], [], [], [], [], []⟩, []⟩) :=
  ⟨(authenticate_user_falsy_spec id 3 "tk"
      ⟨⟨[("bob", ⟨"pw", 0, 0⟩)], [], [], [], [], []⟩, []⟩ "bob" "pw").1,
   (authenticate_user_falsy_spec id 3 "tk"
      ⟨⟨[("bob", ⟨"pw", 0, 0⟩)], [], [], [], [], []⟩, []⟩ "carol" "pw").2.1
     (by decide),
   (authenticate_user_falsy_spec id 3 "tk"
      ⟨⟨[("bob", ⟨"pw", 0, 0⟩)], [], [], [], [], []⟩, []⟩ "bob" "wrong").2.2
     ⟨"pw", 0, 0⟩ (by decide) (by decide)⟩

/-- C9: whenever authenticate_user returns no token (wrong digest, unknown
username, or caught backend exception) the session table is exactly the one
before the call, and whenever it returns a token that token is the freshly
generated one and the table is the old table with exactly that entry
inserted at the call instant. -/
theorem authenticate_user_table_spec (hash : String → String)
    (backendOk : Bool) (now : Int) (newToken : String) (st : AgentState)
    (username password : String) :
    ((authenticate_user hash backendOk now newToken st username password).1 =
        none →
      (authenticate_user hash backendOk now newToken st username
        password).2.user_sessions = st.user_sessions) ∧
    (∀ t,
      (authenticate_user hash backendOk now newToken st username password).1 =
        some t →
      t = newToken ∧
      (authenticate_user hash backendOk now newToken st username
        password).2.user_sessions = insertKey t now st.user_sessions ∧
      lookupKey t (authenticate_user hash backendOk now newToken st username
        password).2.user_sessions = some now) := by
  cases backendOk with
  | false =>
      refine ⟨fun _ => rfl, fun t ht => ?_⟩
      simp [authenticate_user] at ht
  | true =>
      cases hl : lookupKey username st.graph.users with
      | none =>
          refine ⟨fun _ => by simp [authenticate_user, hl], fun t ht => ?_⟩
          simp [authenticate_user, hl] at ht
      | some u =>
          by_cases hpw : u.password = hash password
          · refine ⟨fun hn => ?_, fun t ht => ?_⟩
            · simp [authenticate_user, hl, hpw] at hn
            · have hteq : t = newToken := by
                simp [authenticate_user, hl, hpw] at ht
                exact ht.symm
              subst hteq
              exact ⟨rfl, by simp [authenticate_user, hl, hpw],
                by simp [authenticate_user, hl, hpw, lookupKey_insertKey_self]⟩
          · refine ⟨fun _ => by simp [authenticate_user, hl, hpw],
              fun t ht => ?_⟩
            simp [authenticate_user, hl, hpw] at ht

/-- C9 witness: a failed and a successful login at concrete states. -/
theorem authenticate_user_table_spec_witness :
    (authenticate_user id true 3 "tk"
      ⟨⟨[("bob", ⟨"pw", 0, 0⟩)], [], [], [], [], []⟩, [("old", 1)]⟩
      "bob" "wrong").2.user_sessions = [("old", 1)] ∧
    (authenticate_user id true 3 "tk"
      ⟨⟨[("bob", ⟨"pw", 0, 0⟩)], [], [], [], [], []⟩, [("old", 1)]⟩
      "bob" "pw").2.user_sessions = insertKey "tk" 3 [("old", 1)] ∧
    lookupKey "tk"
      (authenticate_user id true 3 "tk"
        ⟨⟨[("bob", ⟨"pw", 0, 0⟩)], [], [], [], [], []⟩, [("old", 1)]⟩
        "bob" "pw").2.user_sessions = some 3 :=
  let hfail := authenticate_user_table_spec id true 3 "tk"
    ⟨⟨[("bob", ⟨"pw", 0, 0⟩)], [], [], [], [], []⟩, [("old", 1)]⟩ "bob" "wrong"
  let hok := authenticate_user_table_spec id true 3 "tk"
    ⟨⟨[("bob", ⟨"pw", 0, 0⟩)], [], [], [], [], []⟩, [("old", 1)]⟩ "bob" "pw"
  ⟨hfail.1 (by decide), (hok.2 "tk" (by decide)).2.1, (hok.2 "tk" (by decide)).2.2⟩

theorem filterMap_targets_eq_nil (username : String) :
    ∀ edges : List (String × PropDict), (∀ p ∈ edges, p.1 ≠ username) →
      edges.filterMap
        (fun p => if p.1 = username then some p.2 else none) = []
  | [], _ => rfl
  | p :: rest, h => by
      have hp : ¬ p.1 = username := h p (List.mem_cons_self p rest)
      have hrest := filterMap_targets_eq_nil username rest
        (fun q hq => h q (List.mem_cons_of_mem p hq))
      simp [List.filterMap_cons, hp, hrest]

theorem edgeTargets_eq_nil (username : String)
    (edges : List (String × PropDict)) (h : ∀ p ∈ edges, p.1 ≠ username) :
    edgeTargets edges username = [] := by
  unfold edgeTargets
  rw [filterMap_targets_eq_nil username edges h]
  rfl

/-- C4 counterexample: with no user node at all, get_user_preferences
returns the bare empty dictionary of memory.py line 203, which is not the
three-empty-list snapshot the claim promises for that case. -/
theorem get_user_preferences_missing_user_counterexample :
    get_user_preferences ⟨[], [], [], [], [], []⟩ "alice" =
      PrefResult.emptyDict ∧
    PrefResult.emptyDict ≠ PrefResult.snapshot
      { preferences := [], visited_cities := [], interests := [] } := by
  decide

/-- C4 amended: for an existing user with no recorded facts the call
returns the snapshot with exactly the three keys, all lists empty; for a
missing user node it returns the bare empty dictionary instead — still no
error, but a different shape than the three-list snapshot. -/
theorem get_user_preferences_spec (g : Graph) (username : String) :
    (lookupKey username g.users = none →
      get_user_preferences g username = PrefResult.emptyDict) ∧
    (∀ u, lookupKey username g.users = some u →
      (∀ p ∈ g.hasPreference, p.1 ≠ username) →
      (∀ p ∈ g.visited, p.1 ≠ username) →
      (∀ p ∈ g.interestedInActivity, p.1 ≠ username) →
      get_user_preferences g username =
        PrefResult.snapshot
          { preferences := [], visited_cities := [], interests := [] }) := by
  refine ⟨?_, ?_⟩
  · intro h
    simp [get_user_preferences, run_preferences_query, h, _format_preferences]
  · intro u h hp hv hi
    simp [get_user_preferences, run_preferences_query, h, _format_preferences,
      edgeTargets_eq_nil _ _ hp, edgeTargets_eq_nil _ _ hv,
      edgeTargets_eq_nil _ _ hi]

/-- C4 witness: both branches of the amended statement at concrete inputs;
the existing user carries facts of another user only. -/
theorem get_user_preferences_spec_witness :
    get_user_preferences
      ⟨[], [("carol", [("category", "food")])], [], [], [], []⟩ "alice" =
      PrefResult.emptyDict ∧
    get_user_preferences
      ⟨[("alice", ⟨"d", 0, 0⟩)], [("carol", [("category", "food")])], [], [],
        [], []⟩ "alice" =
      PrefResult.snapshot
        { preferences := [], visited_cities := [], interests := [] } :=
  ⟨(get_user_preferences_spec
      ⟨[], [("carol", [("category", "food")])], [], [], [], []⟩ "alice").1
      (by decide),
   (get_user_preferences_spec
      ⟨[("alice", ⟨"d", 0, 0⟩)], [("carol", [("category", "food")])], [], [],
        [], []⟩ "alice").2 ⟨"d", 0, 0⟩ (by decide)
      (by decide) (by decide) (by decide)⟩

theorem store_single_fact (g : Graph) (username text : String) (u : UserNode)
    (hexist : lookupKey username g.users = some u) :
    _store_preferences g username [⟨some [⟨[("text", text)]⟩], none⟩] =
      { g with prefFacts := g.prefFacts ++ [(username, text)] } := by
  simp [_store_preferences, store_items, store_entities, lookupKey, hexist]

theorem countFacts_append_self (g : Graph) (username text : String) :
    countFacts { g with prefFacts := g.prefFacts ++ [(username, text)] }
      username text = countFacts g username text + 1 := by
  simp [countFacts, List.filter_append]

/-- C6: recordFacts is not idempotent.  Storing the one-fact extraction for
an existing user from a state holding no such fact leaves one fact
node-and-edge pair, and running the identical call again leaves two, not
one. -/
theorem store_preferences_not_idempotent (g : Graph) (username text : String)
    (u : UserNode) (hexist : lookupKey username g.users = some u)
    (hbase : countFacts g username text = 0) :
    countFacts
      (_store_preferences g username
        [⟨some [⟨[("text", text)]⟩], none⟩]) username text = 1 ∧
    countFacts
      (_store_preferences
        (_store_preferences g username [⟨some [⟨[("text", text)]⟩], none⟩])
        username [⟨some [⟨[("text", text)]⟩], none⟩]) username text = 2 := by
  have h1 := store_single_fact g username text u hexist
  have hexist2 :
      lookupKey username
        ({ g with prefFacts := g.prefFacts ++ [(username, text)] } :
          Graph).users = some u := hexist
  have h2 := store_single_fact
    { g with prefFacts := g.prefFacts ++ [(username, text)] }
    username text u hexist2
  have hbase2 :
      (g.prefFacts.filter (fun p => p.1 = username ∧ p.2 = text)).length = 0 :=
    hbase
  have hnil : g.prefFacts.filter (fun p => p.1 = username ∧ p.2 = text) = [] :=
    List.length_eq_zero.mp hbase2
  have hmem : ∀ a b : String, (a, b) ∈ g.prefFacts → a = username →
      ¬ b = text := by
    intro a b hm ha hb
    have hin : (a, b) ∈ List.filter
        (fun p => decide (p.1 = username ∧ p.2 = text)) g.prefFacts :=
      List.mem_filter.mpr ⟨hm, by simp [ha, hb]⟩
    rw [hnil] at hin
    exact absurd hin (List.not_mem_nil _)
  rw [h1, h2]
  constructor
  · simp [countFacts, List.filter_append, hnil]
    exact hmem
  · simp [countFacts, List.filter_append, hnil]
    exact hmem

/-- C6 witness: the double call at a concrete state, count 2 and not 1. -/
theorem store_preferences_not_idempotent_witness :
    countFacts
      (_store_preferences
        ⟨[("dave", ⟨"d", 0, 0⟩)], [], [], [], [], []⟩ "dave"
        [⟨some [⟨[("text", "likes hiking")]⟩], none⟩]) "dave"
      "likes hiking" = 1 ∧
    countFacts
      (_store_preferences
        (_store_preferences
          ⟨[("dave", ⟨"d", 0, 0⟩)], [], [], [], [], []⟩ "dave"
          [⟨some [⟨[("text", "likes hiking")]⟩], none⟩]) "dave"
        [⟨some [⟨[("text", "likes hiking")]⟩], none⟩]) "dave"
      "likes hiking" = 2 :=
  store_preferences_not_idempotent
    ⟨[("dave", ⟨"d", 0, 0⟩)], [], [], [], [], []⟩ "dave" "likes hiking"
    ⟨"d", 0, 0⟩ (by decide) (by decide)

/-- C10: every raise inside store_user_memory is swallowed (an erroring body
still yields a normal return carrying the pre-call graph), and extraction
runs before any write: an extraction raise makes the whole body fail with
that very error and the call leaves the graph, its Memory nodes and
REMEMBERS edges included, unchanged. -/
theorem store_user_memory_spec (backendOk : Bool) (g : Graph)
    (username text : String) (now : Int)
    (extraction : Except String (List ExtractedItem)) :
    (∀ e, store_user_memory_body backendOk g username text now extraction =
        Except.error e →
      store_user_memory backendOk g username text now extraction = g) ∧
    (∀ e, extraction = Except.error e →
      store_user_memory_body backendOk g username text now extraction =
        Except.error e ∧
      store_user_memory backendOk g username text now extraction = g) := by
  refine ⟨?_, ?_⟩
  · intro e he
    simp [store_user_memory, he]
  · intro e he
    subst he
    exact ⟨rfl, rfl⟩

/-- C10 witness: a failing extraction at a concrete state with one user
leaves the graph unchanged. -/
theorem store_user_memory_spec_witness :
    store_user_memory_body true
      ⟨[("eve", ⟨"d", 0, 0⟩)], [], [], [], [], []⟩ "eve" "hello" 7
      (Except.error "LLM extraction failed") =
      Except.error "LLM extraction failed" ∧
    store_user_memory true
      ⟨[("eve", ⟨"d", 0, 0⟩)], [], [], [], [], []⟩ "eve" "hello" 7
      (Except.error "LLM extraction failed") =
      ⟨[("eve", ⟨"d", 0, 0⟩)], [], [], [], [], []⟩ :=
  (store_user_memory_spec true
    ⟨[("eve", ⟨"d", 0, 0⟩)], [], [], [], [], []⟩ "eve" "hello" 7
    (Except.error "LLM extraction failed")).2 "LLM extraction failed" rfl
